import Mathlib

/-!
Verification development for the `forc-crypto` plugin
(`src/forc-plugins/forc-crypto/src/main.rs`): the command router (`run`),
the secure output presenter (`display_output`, `has_sensible_info`,
`wait_for_keypress`) and the top-level entry point (`main`).

The embedding identifies a Rust value `T : Serialize` with the result of
`serde_json::to_value` on it, i.e. an `Except String JValue` (the `Except`
models a failing serializer).  The external world (whether stdout is a tty,
whether entering the alternate screen / writing / flushing succeeds, and
what byte is available on stdin) is captured by an `Env` record, and the
observable behaviour of a call is a trace of terminal effects together with
an `ok` / `error` / `panic` verdict.
-/

namespace ForcCrypto

/- Model of `serde_json::Value` (numbers modelled as integers; the claims
never depend on float rendering). `JArray` and `JObject` are the spine of
`Vec<Value>` and `serde_json::Map<String, Value>`. -/
mutual

inductive JValue : Type where
  | null : JValue
  | bool (b : Bool) : JValue
  | num (n : Int) : JValue
  | str (s : String) : JValue
  | arr (xs : JArray) : JValue
  | obj (fields : JObject) : JValue

inductive JArray : Type where
  | nil : JArray
  | cons (hd : JValue) (tl : JArray) : JArray

inductive JObject : Type where
  | nil : JObject
  | cons (key : String) (val : JValue) (tl : JObject) : JObject

end

/-- `serde_json::Map::get`: look a key up in an object. -/
def JObject.get : JObject → String → Option JValue
  | .nil, _ => none
  | .cons k v tl, key => if k = key then some v else JObject.get tl key

/-- `Value::Object` shape test (used to state claims about non-record values). -/
def JValue.isObject : JValue → Bool
  | .obj _ => true
  | _ => false

/-- Decimal digit to character, as in standard decimal rendering. -/
def digitChar : Nat → Char
  | 0 => '0'
  | 1 => '1'
  | 2 => '2'
  | 3 => '3'
  | 4 => '4'
  | 5 => '5'
  | 6 => '6'
  | 7 => '7'
  | 8 => '8'
  | 9 => '9'
  | _ => '*'

/-- Decimal rendering of a natural number, most significant digit first. -/
def natChars (n : Nat) : List Char :=
  if h : n < 10 then [digitChar n]
  else natChars (n / 10) ++ [digitChar (n % 10)]
  termination_by n
  decreasing_by
    exact Nat.div_lt_self (Nat.lt_of_lt_of_le (by decide) (Nat.le_of_not_lt h)) (by decide)

/-- Decimal rendering of an integer. -/
def intChars : Int → List Char
  | .ofNat m => natChars m
  | .negSucc m => '-' :: natChars (m + 1)

/-- JSON string escaping of one character (`serde_json` escaping of the
characters that matter for line structure; other control characters are
rendered verbatim here since they do not introduce newlines). -/
def escChar (c : Char) : List Char :=
  if c = '"' then ['\\', '"']
  else if c = '\\' then ['\\', '\\']
  else if c = '\n' then ['\\', 'n']
  else if c = '\r' then ['\\', 'r']
  else if c = '\t' then ['\\', 't']
  else [c]

/-- JSON string escaping of a character sequence. -/
def escChars : List Char → List Char
  | [] => []
  | c :: cs => escChar c ++ escChars cs

/-- Left brace character (0x7b). -/
def lbrace : Char := Char.ofNat 123

/-- Right brace character (0x7d). -/
def rbrace : Char := Char.ofNat 125

/- Compact rendering produced by `serde_json::to_string`, at character level. -/
mutual

def jsonChars : JValue → List Char
  | .null => "null".data
  | .bool b => (if b then "true" else "false").data
  | .num n => intChars n
  | .str s => '"' :: (escChars s.data ++ ['"'])
  | .arr xs => '[' :: (jsonArrChars xs ++ [']'])
  | .obj fs => lbrace :: (jsonObjChars fs ++ [rbrace])

def jsonArrChars : JArray → List Char
  | .nil => []
  | .cons v .nil => jsonChars v
  | .cons v (.cons w tl) => jsonChars v ++ ',' :: jsonArrChars (.cons w tl)

def jsonObjChars : JObject → List Char
  | .nil => []
  | .cons k v .nil => '"' :: (escChars k.data ++ '"' :: ':' :: jsonChars v)
  | .cons k v (.cons k2 v2 tl) =>
      ('"' :: (escChars k.data ++ '"' :: ':' :: jsonChars v))
        ++ ',' :: jsonObjChars (.cons k2 v2 tl)

end

/-- `serde_json::to_string` on a serializable value. -/
def jsonString (v : JValue) : String := ⟨jsonChars v⟩

/- Modelled from the spec (§4.5, §6): `serde_yaml::to_string` is an external
serializer producing a human-readable multi-line rendering; the verified
properties never inspect its text, only that the same rendering is forwarded
verbatim to the chosen display channel.  Model: top-level objects become
`key: value` lines, arrays become `- value` lines, scalars are printed bare. -/
mutual

def yamlChars : JValue → List Char
  | .null => "null".data
  | .bool b => (if b then "true" else "false").data
  | .num n => intChars n
  | .str s => s.data
  | .arr xs => yamlArrChars xs
  | .obj fs => yamlObjChars fs

def yamlArrChars : JArray → List Char
  | .nil => []
  | .cons v tl => '-' :: ' ' :: (yamlChars v ++ '\n' :: yamlArrChars tl)

def yamlObjChars : JObject → List Char
  | .nil => []
  | .cons k v tl => k.data ++ ':' :: ' ' :: (yamlChars v ++ '\n' :: yamlObjChars tl)

end

/-- `serde_yaml::to_string` on a serializable value. -/
def yamlString (v : JValue) : String := ⟨yamlChars v⟩

/-- A Rust `T : Serialize` value, identified with the result of
`serde_json::to_value` on it (`Except.error` models a failing serializer). -/
abbrev SerMsg : Type := Except String JValue

/-- `serde_yaml::to_string(&message)`: succeeds exactly when the message
serializes, mirroring that both serializers walk the same `Serialize` impl. -/
def serde_yaml_to_string : SerMsg → Except String String
  | .ok v => .ok (yamlString v)
  | .error e => .error e

/-- `serde_json::to_string(&message)`. -/
def serde_json_to_string : SerMsg → Except String String
  | .ok v => .ok (jsonString v)
  | .error e => .error e

/--
`has_sensible_info` from `main.rs`:

```
match serde_json::to_value(message) {
    Ok(serde_json::Value::Object(map)) => map.get("secret").is_some(),
    _ => false,
}
```
-/
def has_sensible_info (message : SerMsg) : Bool :=
  match message with
  | .ok (.obj map) => (map.get "secret").isSome
  | _ => false

/-- Observable terminal effects of one invocation, in order.  `enterAlt` /
`leaveAlt` bracket the alternate screen (termion `IntoAlternateScreen` /
its `Drop`); `write` is any byte sequence sent to stdout; `readByte` is the
one-byte read from stdin. -/
inductive Effect : Type where
  | enterAlt : Effect
  | leaveAlt : Effect
  | write (s : String) : Effect
  | flush : Effect
  | readByte : Effect
deriving DecidableEq

/-- External world of one invocation: the tty check on stdout, failure
injection for entering the alternate screen / writing to it / flushing it
(`some e` = that operation fails with io error `e`), and the byte available
on stdin (`none` = end of input, the read fails). -/
structure Env : Type where
  isTty : Bool
  altScreenErr : Option String
  writeErr : Option String
  flushErr : Option String
  stdinByte : Option UInt8
deriving DecidableEq

/-- Result of a call that can return `Ok`, propagate an `Err`, or panic
(`expect` / `unwrap`), together with the terminal effects it performed.
Panic traces include the `leaveAlt` performed by unwinding drop. -/
inductive Outcome : Type where
  | ok (trace : List Effect) : Outcome
  | error (trace : List Effect) (msg : String) : Outcome
  | panic (trace : List Effect) (msg : String) : Outcome
deriving DecidableEq

/-- The effects performed, whatever the verdict. -/
def traceOf : Outcome → List Effect
  | .ok t => t
  | .error t _ => t
  | .panic t _ => t

/-- Result of `wait_for_keypress`, which returns `()` or panics — its
signature has no error variant to return. -/
inductive KeyWaitResult : Type where
  | returned : KeyWaitResult
  | panicked (msg : String) : KeyWaitResult
deriving DecidableEq

/--
`wait_for_keypress` from `main.rs`:

```
let mut single_key = [0u8];
stdin().read_exact(&mut single_key).unwrap();
```

Reads exactly one byte, ignores its value; `unwrap` panics if the read fails.
-/
def wait_for_keypress (stdinByte : Option UInt8) : KeyWaitResult :=
  match stdinByte with
  | some _ => .returned
  | none => .panicked "wait_for_keypress: read_exact failed"

/-- The fixed warning line printed in the shielded branch. -/
def warningLine : String :=
  "### Do not share or lose this private key! Press any key to exit. ###"

/--
`display_output` from `main.rs`:

```
if atty::is(Stream::Stdout) {
    let text = serde_yaml::to_string(&message).expect("valid string");
    if has_sensible_info(&message) {
        let mut screen = stdout().into_alternate_screen()?;
        writeln!(screen, "{text}",)?;
        screen.flush()?;
        println!("### Do not share or lose this private key! Press any key to exit. ###");
        wait_for_keypress();
    } else {
        println!("{text}");
    }
} else {
    print!("{}", serde_json::to_string(&message).expect("valid json"));
}
Ok(())
```

The alternate-screen guard is restored (`leaveAlt`) on scope exit, on each
`?` early return, and on unwind from the `wait_for_keypress` panic.
-/
def display_output (env : Env) (message : SerMsg) : Outcome :=
  if env.isTty then
    match serde_yaml_to_string message with
    | .error e => .panic [] ("valid string: " ++ e)
    | .ok text =>
      if has_sensible_info message then
        match env.altScreenErr with
        | some e => .error [] e
        | none =>
          match env.writeErr with
          | some e => .error [.enterAlt, .leaveAlt] e
          | none =>
            match env.flushErr with
            | some e => .error [.enterAlt, .write (text ++ "\n"), .leaveAlt] e
            | none =>
              match wait_for_keypress env.stdinByte with
              | .panicked m =>
                  .panic [.enterAlt, .write (text ++ "\n"), .flush,
                          .write (warningLine ++ "\n"), .readByte, .leaveAlt] m
              | .returned =>
                  .ok [.enterAlt, .write (text ++ "\n"), .flush,
                       .write (warningLine ++ "\n"), .readByte, .leaveAlt]
      else
        .ok [.write (text ++ "\n")]
  else
    match serde_json_to_string message with
    | .error e => .panic [] ("valid json: " ++ e)
    | .ok s => .ok [.write s]

/--
The `Command` enum from `main.rs` (the six clap subcommand variants).  The
argument payload types live in modules outside the analysed file, so they are
type parameters here; the router never inspects them, it only forwards them
to the matching handler.
-/
inductive Command (HA AA GA NA PA : Type) : Type where
  | Keccak256 (arg : HA) : Command HA AA GA NA PA
  | Sha256 (arg : HA) : Command HA AA GA NA PA
  | Address (arg : AA) : Command HA AA GA NA PA
  | GetPublicKey (arg : GA) : Command HA AA GA NA PA
  | NewKey (arg : NA) : Command HA AA GA NA PA
  | ParseSecret (arg : PA) : Command HA AA GA NA PA

/-- The six operation handlers called by `run` (`keccak256::hash`,
`sha256::hash`, `address::dump_address`, `keys::get_public_key::handler`,
`keys::new_key::handler`, `keys::parse_secret::handler`).  Their bodies live
in modules outside the analysed file; each is an abstract function from its
argument to `Result<T>`, with the produced Result Value identified with its
JSON serialization. -/
structure Handlers (HA AA GA NA PA : Type) : Type where
  keccak256_hash : HA → Except String JValue
  sha256_hash : HA → Except String JValue
  dump_address : AA → Except String JValue
  get_public_key_handler : GA → Except String JValue
  new_key_handler : NA → Except String JValue
  parse_secret_handler : PA → Except String JValue

/--
The `let content = match app { ... }` dispatch inside `run`: each variant is
routed to exactly one handler, with the `?` on every arm modelled by the
`Except` result.
-/
def routedContent {HA AA GA NA PA : Type} (hs : Handlers HA AA GA NA PA) :
    Command HA AA GA NA PA → Except String JValue
  | .Keccak256 arg => hs.keccak256_hash arg
  | .GetPublicKey arg => hs.get_public_key_handler arg
  | .Sha256 arg => hs.sha256_hash arg
  | .Address arg => hs.dump_address arg
  | .NewKey arg => hs.new_key_handler arg
  | .ParseSecret arg => hs.parse_secret_handler arg

/--
`run` from `main.rs`: dispatch the parsed command to its handler (each arm
carrying a `?`), then pass the single result unconditionally to
`display_output`, the sole point of output.
-/
def run {HA AA GA NA PA : Type} (env : Env) (hs : Handlers HA AA GA NA PA)
    (app : Command HA AA GA NA PA) : Outcome :=
  match routedContent hs app with
  | .error e => .error [] e
  | .ok v => display_output env (.ok v)

/-- How the process ends: falls off `main` normally (exit code 0), calls
`std::process::exit code`, or panics. -/
inductive ExitStatus : Type where
  | success : ExitStatus
  | exited (code : Nat) : ExitStatus
  | panicked (msg : String) : ExitStatus
deriving DecidableEq

/-- Observable behaviour of the whole process: terminal (stdout) effects,
the line written to the diagnostic stream (if any), and how it exited. -/
structure MainOutcome : Type where
  trace : List Effect
  diag : Option String
  exit : ExitStatus
deriving DecidableEq

/-- Modelled from the spec (§7): `forc_tracing::println_error` (external to
the analysed file) prints a single formatted error line to the diagnostic
stream; the line carries the `Display` rendering of the error, which
`format!("{}", err)` passes through unmodified. -/
def println_error (msg : String) : String := msg

/--
`main` from `main.rs`:

```
init_tracing_subscriber(Default::default());
if let Err(err) = run() {
    println_error(&format!("{}", err));
    std::process::exit(1);
}
```

On `Ok` it falls through (exit 0); on `Err` it prints one error line to the
diagnostic stream and exits with code 1; a panic inside `run` aborts.
-/
def main {HA AA GA NA PA : Type} (env : Env) (hs : Handlers HA AA GA NA PA)
    (app : Command HA AA GA NA PA) : MainOutcome :=
  match run env hs app with
  | .ok t => ⟨t, none, .success⟩
  | .error t e => ⟨t, some (println_error e), .exited 1⟩
  | .panic t m => ⟨t, none, .panicked m⟩

/-- Membership of the alternate-screen entry in the trace: the observable
mark of the shielded display route. -/
def entersAltScreen (o : Outcome) : Prop := Effect.enterAlt ∈ traceOf o

instance (o : Outcome) : Decidable (entersAltScreen o) := by
  unfold entersAltScreen; infer_instance

/-- The writes that land on the normal terminal buffer (scrollback): writes
performed while no alternate screen is active.  `d` is the current nesting
depth of alternate screens. -/
def normalWrites : Nat → List Effect → List String
  | _, [] => []
  | d, .enterAlt :: r => normalWrites (d + 1) r
  | d, .leaveAlt :: r => normalWrites (d - 1) r
  | 0, .write s :: r => s :: normalWrites 0 r
  | d + 1, .write _ :: r => normalWrites (d + 1) r
  | d, .flush :: r => normalWrites d r
  | d, .readByte :: r => normalWrites d r

/-- A string that occupies a single terminal line: it contains no newline. -/
def singleLine (s : String) : Prop := '\n' ∉ s.data

/-- Sample secret-bearing Result Value: what `new-key` produces. -/
def secretSample : JValue :=
  .obj (.cons "secret" (.str "a1b2") (.cons "public" (.str "pku") (.cons "address" (.str "ad") .nil)))

/-- Sample non-record Result Value: a bare hex digest string. -/
def digestSample : JValue := .str "secret deadbeef"

/-- Interactive environment where every terminal operation succeeds. -/
def envInteractive : Env := ⟨true, none, none, none, some 10⟩

/-- Non-interactive (piped) environment. -/
def envPiped : Env := ⟨false, none, none, none, none⟩

/-- Interactive environment where entering the alternate screen fails. -/
def envAltFail : Env := ⟨true, some "io error", none, none, some 10⟩

/-- Interactive environment where stdin is at end of file. -/
def envEofStdin : Env := ⟨true, none, none, none, none⟩

/-- Handlers over trivial argument types that all succeed. -/
def unitHandlers : Handlers Unit Unit Unit Unit Unit :=
  ⟨fun _ => .ok digestSample, fun _ => .ok digestSample, fun _ => .ok digestSample,
   fun _ => .ok digestSample, fun _ => .ok secretSample, fun _ => .ok secretSample⟩

/-- Handlers over trivial argument types that all fail. -/
def failingHandlers : Handlers Unit Unit Unit Unit Unit :=
  ⟨fun _ => .error "boom", fun _ => .error "boom", fun _ => .error "boom",
   fun _ => .error "boom", fun _ => .error "boom", fun _ => .error "boom"⟩

/-- Decimal digit characters are never a newline. -/
theorem digitChar_ne_newline (d : Nat) : digitChar d ≠ '\n' := by
  unfold digitChar
  split <;> decide

/-- Decimal renderings of naturals contain no newline. -/
theorem natChars_no_newline (n : Nat) : '\n' ∉ natChars n := by
  induction n using Nat.strong_induction_on with
  | _ n ih =>
    rw [natChars]
    split
    · simp [digitChar_ne_newline n]
      exact (digitChar_ne_newline n).symm
    · next h =>
      intro hmem
      rcases List.mem_append.mp hmem with hl | hr
      · exact ih (n / 10)
          (Nat.div_lt_self (Nat.lt_of_lt_of_le (by decide) (Nat.le_of_not_lt h)) (by decide)) hl
      · rcases List.mem_singleton.mp hr with h10
        exact (digitChar_ne_newline (n % 10)) h10.symm

/-- Decimal renderings of integers contain no newline. -/
theorem intChars_no_newline (n : Int) : '\n' ∉ intChars n := by
  cases n with
  | ofNat m => exact natChars_no_newline m
  | negSucc m =>
    intro hmem
    rcases List.mem_cons.mp hmem with h | h
    · exact absurd h.symm (by decide)
    · exact natChars_no_newline (m + 1) h

/-- JSON escaping of one character produces no newline. -/
theorem escChar_no_newline (c : Char) : '\n' ∉ escChar c := by
  unfold escChar
  split
  · decide
  · split
    · decide
    · split
      · decide
      · split
        · decide
        · split
          · decide
          · next h1 h2 h3 h4 h5 =>
            intro hmem
            rcases List.mem_singleton.mp hmem with h
            exact h3 h.symm

/-- JSON escaping of a character sequence produces no newline. -/
theorem escChars_no_newline (cs : List Char) : '\n' ∉ escChars cs := by
  induction cs with
  | nil => simp [escChars]
  | cons c cs ih =>
    unfold escChars
    intro hmem
    rcases List.mem_append.mp hmem with h | h
    · exact escChar_no_newline c h
    · exact ih h

mutual

/-- The compact JSON rendering of a value contains no newline. -/
theorem jsonChars_no_newline : (v : JValue) → '\n' ∉ jsonChars v
  | .null => by decide
  | .bool true => by decide
  | .bool false => by decide
  | .num n => intChars_no_newline n
  | .str s => by
    intro hmem
    rcases List.mem_cons.mp hmem with h | h
    · exact absurd h.symm (by decide)
    · rcases List.mem_append.mp h with h | h
      · exact escChars_no_newline s.data h
      · exact absurd (List.mem_singleton.mp h).symm (by decide)
  | .arr xs => by
    intro hmem
    rcases List.mem_cons.mp hmem with h | h
    · exact absurd h.symm (by decide)
    · rcases List.mem_append.mp h with h | h
      · exact jsonArrChars_no_newline xs h
      · exact absurd (List.mem_singleton.mp h).symm (by decide)
  | .obj fs => by
    intro hmem
    rcases List.mem_cons.mp hmem with h | h
    · exact absurd h.symm (by decide)
    · rcases List.mem_append.mp h with h | h
      · exact jsonObjChars_no_newline fs h
      · exact absurd (List.mem_singleton.mp h).symm (by decide)

/-- The compact JSON rendering of an array body contains no newline. -/
theorem jsonArrChars_no_newline : (xs : JArray) → '\n' ∉ jsonArrChars xs
  | .nil => by simp [jsonArrChars]
  | .cons v .nil => by
    simpa [jsonArrChars] using jsonChars_no_newline v
  | .cons v (.cons w tl) => by
    intro hmem
    rw [jsonArrChars] at hmem
    rcases List.mem_append.mp hmem with h | h
    · exact jsonChars_no_newline v h
    · rcases List.mem_cons.mp h with h | h
      · exact absurd h.symm (by decide)
      · exact jsonArrChars_no_newline (.cons w tl) h

/-- The compact JSON rendering of an object body contains no newline. -/
theorem jsonObjChars_no_newline : (fs : JObject) → '\n' ∉ jsonObjChars fs
  | .nil => by simp [jsonObjChars]
  | .cons k v .nil => by
    intro hmem
    rw [jsonObjChars] at hmem
    rcases List.mem_cons.mp hmem with h | h
    · exact absurd h.symm (by decide)
    · rcases List.mem_append.mp h with h | h
      · exact escChars_no_newline k.data h
      · rcases List.mem_cons.mp h with h | h
        · exact absurd h.symm (by decide)
        · rcases List.mem_cons.mp h with h | h
          · exact absurd h.symm (by decide)
          · exact jsonChars_no_newline v h
  | .cons k v (.cons k2 v2 tl) => by
    intro hmem
    rw [jsonObjChars] at hmem
    rcases List.mem_append.mp hmem with h | h
    · rcases List.mem_cons.mp h with h | h
      · exact absurd h.symm (by decide)
      · rcases List.mem_append.mp h with h | h
        · exact escChars_no_newline k.data h
        · rcases List.mem_cons.mp h with h | h
          · exact absurd h.symm (by decide)
          · rcases List.mem_cons.mp h with h | h
            · exact absurd h.symm (by decide)
            · exact jsonChars_no_newline v h
    · rcases List.mem_cons.mp h with h | h
      · exact absurd h.symm (by decide)
      · exact jsonObjChars_no_newline (.cons k2 v2 tl) h

end

/-- `serde_json::to_string` output occupies a single line, for every value. -/
theorem jsonString_single_line (v : JValue) : singleLine (jsonString v) :=
  jsonChars_no_newline v

/-- C1: for every serializable Result Value displayed by `display_output` in
an interactive context (with a working alternate screen), the shielded
(alternate-screen) route is taken if and only if the value's serialization
has a field named `secret` — a function of the value's shape alone, not of
the operation that produced it. -/
theorem shield_iff_secret_field (env : Env) (message : SerMsg)
    (htty : env.isTty = true) (halt : env.altScreenErr = none) :
    entersAltScreen (display_output env message) ↔ has_sensible_info message = true := by
  rcases env with ⟨tty, alt, w, f, sb⟩
  simp only at htty halt
  subst htty halt
  cases message with
  | error e =>
    simp [display_output, serde_yaml_to_string, has_sensible_info, entersAltScreen, traceOf]
  | ok v =>
    by_cases hs : has_sensible_info (Except.ok v) = true <;>
      cases w <;> cases f <;> cases sb <;>
        simp [display_output, serde_yaml_to_string, entersAltScreen, traceOf,
              wait_for_keypress, hs]

/-- C1 witness: the secret-bearing sample, displayed interactively, routes
through the alternate screen. -/
theorem shield_iff_secret_field_witness :
    entersAltScreen (display_output envInteractive (.ok secretSample)) ↔
      has_sensible_info (.ok secretSample) = true :=
  shield_iff_secret_field envInteractive (.ok secretSample) rfl rfl

/-- C2: interactively displaying a secret-bearing Result Value (when the
terminal operations succeed and a byte is available on stdin) enters the
alternate screen, writes the full rendering there, flushes, writes the fixed
warning line, reads exactly one byte from stdin (its value ignored — the
trace does not depend on `b`), restores the normal screen, and succeeds;
no write lands on the normal scrollback buffer. -/
theorem shielded_display_protocol (env : Env) (v : JValue) (b : UInt8)
    (htty : env.isTty = true) (hsec : has_sensible_info (.ok v) = true)
    (halt : env.altScreenErr = none) (hw : env.writeErr = none)
    (hf : env.flushErr = none) (hsb : env.stdinByte = some b) :
    display_output env (.ok v) =
      .ok [.enterAlt, .write (yamlString v ++ "\n"), .flush,
           .write (warningLine ++ "\n"), .readByte, .leaveAlt] ∧
    normalWrites 0 (traceOf (display_output env (.ok v))) = [] := by
  rcases env with ⟨tty, alt, w, f, sb⟩
  simp only at htty halt hw hf hsb
  subst htty halt hw hf hsb
  constructor
  · simp [display_output, serde_yaml_to_string, hsec, wait_for_keypress]
  · simp [display_output, serde_yaml_to_string, hsec, wait_for_keypress,
          traceOf, normalWrites]

/-- C2 witness: the protocol trace on the secret-bearing sample. -/
theorem shielded_display_protocol_witness :
    display_output envInteractive (.ok secretSample) =
      .ok [.enterAlt, .write (yamlString secretSample ++ "\n"), .flush,
           .write (warningLine ++ "\n"), .readByte, .leaveAlt] ∧
    normalWrites 0 (traceOf (display_output envInteractive (.ok secretSample))) = [] :=
  shielded_display_protocol envInteractive secretSample 10 rfl (by decide) rfl rfl rfl rfl

/-- C3: non-interactively, `display_output` writes exactly the single-line
compact JSON rendering to stdout, for every serializable Result Value
(secret-bearing or not), with no shielding, no warning, no alternate screen
and no read from stdin. -/
theorem noninteractive_single_line (env : Env) (v : JValue)
    (htty : env.isTty = false) :
    display_output env (.ok v) = .ok [.write (jsonString v)] ∧
    singleLine (jsonString v) ∧
    Effect.enterAlt ∉ traceOf (display_output env (.ok v)) ∧
    Effect.readByte ∉ traceOf (display_output env (.ok v)) := by
  rcases env with ⟨tty, alt, w, f, sb⟩
  simp only at htty
  subst htty
  refine ⟨rfl, jsonString_single_line v, ?_, ?_⟩ <;>
    simp [display_output, serde_json_to_string, traceOf]

/-- C3 witness: the piped display of the secret-bearing sample is one
JSON line with no shielding effects. -/
theorem noninteractive_single_line_witness :
    display_output envPiped (.ok secretSample) = .ok [.write (jsonString secretSample)] ∧
    singleLine (jsonString secretSample) ∧
    Effect.enterAlt ∉ traceOf (display_output envPiped (.ok secretSample)) ∧
    Effect.readByte ∉ traceOf (display_output envPiped (.ok secretSample)) :=
  noninteractive_single_line envPiped secretSample rfl

/-- C4: if entering the alternate screen fails while a secret-bearing Result
Value is displayed interactively, `display_output` propagates that error and
performs no terminal effect at all: nothing of the Result Value reaches
stdout, and in particular nothing reaches the normal scrollback. -/
theorem alt_screen_failure_hard_error (env : Env) (v : JValue) (e : String)
    (htty : env.isTty = true) (hsec : has_sensible_info (.ok v) = true)
    (halt : env.altScreenErr = some e) :
    display_output env (.ok v) = .error [] e ∧
    traceOf (display_output env (.ok v)) = [] := by
  rcases env with ⟨tty, alt, w, f, sb⟩
  simp only at htty halt
  subst htty halt
  constructor <;> simp [display_output, serde_yaml_to_string, hsec, traceOf]

/-- C4 witness: alternate-screen failure on the secret-bearing sample. -/
theorem alt_screen_failure_hard_error_witness :
    display_output envAltFail (.ok secretSample) = .error [] "io error" ∧
    traceOf (display_output envAltFail (.ok secretSample)) = [] :=
  alt_screen_failure_hard_error envAltFail secretSample "io error" rfl (by decide) rfl

/-- Helper: with no `secret` field, the interactive display is one plain
write, with no alternate screen and no stdin read. -/
theorem display_plain_of_not_sensible (env : Env) (v : JValue)
    (htty : env.isTty = true) (hsec : has_sensible_info (.ok v) = false) :
    display_output env (.ok v) = .ok [.write (yamlString v ++ "\n")] ∧
    ¬ entersAltScreen (display_output env (.ok v)) ∧
    Effect.readByte ∉ traceOf (display_output env (.ok v)) := by
  rcases env with ⟨tty, alt, w, f, sb⟩
  simp only at htty
  subst htty
  refine ⟨?_, ?_, ?_⟩ <;>
    simp [display_output, serde_yaml_to_string, hsec, entersAltScreen, traceOf]

/-- C5: interactively displaying a Result Value without a `secret` field
prints the human-readable rendering as one plain write to the normal
terminal buffer, never enters the alternate screen, and never reads a
keypress from stdin. -/
theorem interactive_plain_display (env : Env) (v : JValue)
    (htty : env.isTty = true) (hsec : has_sensible_info (.ok v) = false) :
    display_output env (.ok v) = .ok [.write (yamlString v ++ "\n")] ∧
    ¬ entersAltScreen (display_output env (.ok v)) ∧
    Effect.readByte ∉ traceOf (display_output env (.ok v)) :=
  display_plain_of_not_sensible env v htty hsec

/-- C5 witness: a bare digest string displayed interactively goes straight
to the normal buffer. -/
theorem interactive_plain_display_witness :
    display_output envInteractive (.ok digestSample) =
      .ok [.write (yamlString digestSample ++ "\n")] ∧
    ¬ entersAltScreen (display_output envInteractive (.ok digestSample)) ∧
    Effect.readByte ∉ traceOf (display_output envInteractive (.ok digestSample)) :=
  interactive_plain_display envInteractive digestSample rfl (by decide)

/-- C6: the router is exhaustive — every command is one of the six declared
variants, each variant is routed to exactly one handler (the six dispatch
equations), and the single result is passed unconditionally to
`display_output`, the sole point of output (on a handler error nothing is
displayed at all). -/
theorem command_router_exhaustive_dispatch {HA AA GA NA PA : Type}
    (env : Env) (hs : Handlers HA AA GA NA PA) (c : Command HA AA GA NA PA) :
    ((∃ a, c = Command.Keccak256 a) ∨ (∃ a, c = Command.Sha256 a) ∨
     (∃ a, c = Command.Address a) ∨ (∃ a, c = Command.GetPublicKey a) ∨
     (∃ a, c = Command.NewKey a) ∨ (∃ a, c = Command.ParseSecret a)) ∧
    (∀ a, routedContent hs (Command.Keccak256 a : Command HA AA GA NA PA) =
        hs.keccak256_hash a) ∧
    (∀ a, routedContent hs (Command.Sha256 a : Command HA AA GA NA PA) =
        hs.sha256_hash a) ∧
    (∀ a, routedContent hs (Command.Address a : Command HA AA GA NA PA) =
        hs.dump_address a) ∧
    (∀ a, routedContent hs (Command.GetPublicKey a : Command HA AA GA NA PA) =
        hs.get_public_key_handler a) ∧
    (∀ a, routedContent hs (Command.NewKey a : Command HA AA GA NA PA) =
        hs.new_key_handler a) ∧
    (∀ a, routedContent hs (Command.ParseSecret a : Command HA AA GA NA PA) =
        hs.parse_secret_handler a) ∧
    (∀ v, routedContent hs c = .ok v → run env hs c = display_output env (.ok v)) ∧
    (∀ e, routedContent hs c = .error e → run env hs c = .error [] e) := by
  refine ⟨?_, fun a => rfl, fun a => rfl, fun a => rfl, fun a => rfl, fun a => rfl,
          fun a => rfl, ?_, ?_⟩
  · cases c with
    | Keccak256 a => exact Or.inl ⟨a, rfl⟩
    | Sha256 a => exact Or.inr (Or.inl ⟨a, rfl⟩)
    | Address a => exact Or.inr (Or.inr (Or.inl ⟨a, rfl⟩))
    | GetPublicKey a => exact Or.inr (Or.inr (Or.inr (Or.inl ⟨a, rfl⟩)))
    | NewKey a => exact Or.inr (Or.inr (Or.inr (Or.inr (Or.inl ⟨a, rfl⟩))))
    | ParseSecret a => exact Or.inr (Or.inr (Or.inr (Or.inr (Or.inr ⟨a, rfl⟩))))
  · intro v hv
    simp [run, hv]
  · intro e he
    simp [run, he]

/-- C6 witness: the `new-key` command with a successful handler hands its
result straight to `display_output`. -/
theorem command_router_exhaustive_dispatch_witness :
    run envInteractive unitHandlers (Command.NewKey ()) =
      display_output envInteractive (.ok secretSample) :=
  (command_router_exhaustive_dispatch envInteractive unitHandlers
    (Command.NewKey ())).2.2.2.2.2.2.2.1 secretSample rfl

/-- C7: an operation-level failure is propagated unmodified to `main`, which
prints the single error line carrying exactly that message to the diagnostic
stream and exits with code 1; no terminal effect is performed, so no Result
Value is displayed on the failure path. -/
theorem operation_failure_propagation {HA AA GA NA PA : Type}
    (env : Env) (hs : Handlers HA AA GA NA PA) (app : Command HA AA GA NA PA)
    (e : String) (hfail : routedContent hs app = .error e) :
    main env hs app = ⟨[], some e, .exited 1⟩ := by
  simp [main, run, hfail, println_error]

/-- C7 witness: a failing sha256 handler surfaces its message verbatim with
exit code 1 and an empty output trace. -/
theorem operation_failure_propagation_witness :
    main envInteractive failingHandlers (Command.Sha256 ()) =
      ⟨[], some "boom", .exited 1⟩ :=
  operation_failure_propagation envInteractive failingHandlers (Command.Sha256 ()) "boom" rfl

/-- C8: `has_sensible_info` is false for every serialization failure and for
every value that is not a JSON object — even a bare string whose text
contains the word "secret" — so such a Result Value displayed interactively
goes down the plain path and is never shielded. -/
theorem non_object_never_shielded (env : Env) (v : JValue) (e : String)
    (hobj : v.isObject = false) (htty : env.isTty = true) :
    has_sensible_info (.ok v) = false ∧
    has_sensible_info (.error e) = false ∧
    display_output env (.ok v) = .ok [.write (yamlString v ++ "\n")] ∧
    ¬ entersAltScreen (display_output env (.ok v)) := by
  have hsec : has_sensible_info (.ok v) = false := by
    cases v <;> simp_all [has_sensible_info, JValue.isObject]
  have h5 := display_plain_of_not_sensible env v htty hsec
  exact ⟨hsec, rfl, h5.1, h5.2.1⟩

/-- C8 witness: a bare string containing the word "secret" is not shielded. -/
theorem non_object_never_shielded_witness :
    has_sensible_info (.ok digestSample) = false ∧
    has_sensible_info (.error "ser fail") = false ∧
    display_output envInteractive (.ok digestSample) =
      .ok [.write (yamlString digestSample ++ "\n")] ∧
    ¬ entersAltScreen (display_output envInteractive (.ok digestSample)) :=
  non_object_never_shielded envInteractive digestSample "ser fail" (by decide) rfl

/-- C9: when the acknowledgement read from stdin fails, `wait_for_keypress`
panics (its result type has no error variant to return); when a byte is
readable the panic branch is not taken; and in the shielded interactive
path an end-of-file stdin turns the whole display into a panic. -/
theorem wait_for_keypress_panics_on_failed_read (env : Env) (v : JValue)
    (htty : env.isTty = true) (hsec : has_sensible_info (.ok v) = true)
    (halt : env.altScreenErr = none) (hw : env.writeErr = none)
    (hf : env.flushErr = none) (hsb : env.stdinByte = none) :
    (∃ m, wait_for_keypress none = .panicked m) ∧
    (∀ b, wait_for_keypress (some b) = .returned) ∧
    (∃ t m, display_output env (.ok v) = .panic t m) := by
  rcases env with ⟨tty, alt, w, f, sb⟩
  simp only at htty halt hw hf hsb
  subst htty halt hw hf hsb
  refine ⟨⟨"wait_for_keypress: read_exact failed", rfl⟩, fun b => rfl, ?_⟩
  refine ⟨[.enterAlt, .write (yamlString v ++ "\n"), .flush,
           .write (warningLine ++ "\n"), .readByte, .leaveAlt],
          "wait_for_keypress: read_exact failed", ?_⟩
  simp [display_output, serde_yaml_to_string, hsec, wait_for_keypress]

/-- C9 witness: end-of-file stdin panics the shielded display of the
secret-bearing sample. -/
theorem wait_for_keypress_panics_on_failed_read_witness :
    (∃ m, wait_for_keypress none = .panicked m) ∧
    (∀ b, wait_for_keypress (some b) = .returned) ∧
    (∃ t m, display_output envEofStdin (.ok secretSample) = .panic t m) :=
  wait_for_keypress_panics_on_failed_read envEofStdin secretSample rfl (by decide)
    rfl rfl rfl rfl

/-- C10: whenever `run` ends in a propagated error — any operation, any error
kind, including display errors — the process exits with code exactly 1. -/
theorem failure_exit_code_is_one {HA AA GA NA PA : Type}
    (env : Env) (hs : Handlers HA AA GA NA PA) (app : Command HA AA GA NA PA)
    (t : List Effect) (e : String) (hfail : run env hs app = .error t e) :
    (main env hs app).exit = .exited 1 := by
  simp [main, hfail]

/-- C10 witness: a failing keccak256 handler exits with code 1. -/
theorem failure_exit_code_is_one_witness :
    (main envInteractive failingHandlers (Command.Keccak256 ())).exit = .exited 1 :=
  failure_exit_code_is_one envInteractive failingHandlers (Command.Keccak256 ())
    [] "boom" rfl

end ForcCrypto
